import Mathlib

/-!
Verification development for the remote-synchronized migration and
consolidation engine of this repository (migracion40.py, aspirantes40.py,
shared_config.py).  Python strings are embedded as lists of code points
(`List Nat`), SQLite tables as Lean lists of records, the two file systems
(local and remote) as maps from path to optional byte content, and the
per-record exceptions raised by SQL statements as explicit boolean oracles.
-/

namespace Esc

/-- Code points of a string literal; embeds a Python `str` at the character
level.  SQLite BINARY collation compares TEXT bytewise, which on UTF-8 data
coincides with code-point order, so lexicographic order on these lists
embeds `ORDER BY <text column>`. -/
def cod (s : String) : List Nat := s.data.map Char.toNat

/-- Lexicographic less-or-equal on code-point lists; embeds the order SQLite
uses for `ORDER BY` on TEXT columns (BINARY collation). -/
def lexLe : List Nat → List Nat → Bool
  | [], _ => true
  | _ :: _, [] => false
  | a :: as, b :: bs =>
      if a < b then true
      else if a = b then lexLe as bs
      else false

/-- Embeds Python `s.startswith(p)` / SQLite `LIKE <p>%` on data containing
no wildcard characters: `startsWithL p s` holds when `s` begins with `p`. -/
def startsWithL : List Nat → List Nat → Bool
  | [], _ => true
  | _ :: _, [] => false
  | a :: as, b :: bs => if a = b then startsWithL as bs else false

/-- Decimal digit characters of a natural number, most significant first
(fuel-based helper). -/
def natToDigitsAux : Nat → Nat → List Nat
  | 0, _ => []
  | fuel + 1, n =>
      if n < 10 then [48 + n] else natToDigitsAux fuel (n / 10) ++ [48 + n % 10]

/-- Decimal digit characters of a natural number, most significant first. -/
def natToDigits (n : Nat) : List Nat := natToDigitsAux (n + 1) n

/-- Embeds the Python format `f"{n:06d}"`. -/
def pad6 (n : Nat) : List Nat :=
  if n < 1000000 then
    [48 + n / 100000, 48 + n / 10000 % 10, 48 + n / 1000 % 10,
     48 + n / 100 % 10, 48 + n / 10 % 10, 48 + n % 10]
  else natToDigits n

/-- Embeds Python `str.lower()` on one ASCII code point. -/
def toLowerN (c : Nat) : Nat := if 65 ≤ c ∧ c ≤ 90 then c + 32 else c

/-- Embeds Python `sub in s` (substring containment). -/
def containsSub (sub : List Nat) : List Nat → Bool
  | [] => sub.isEmpty
  | c :: rest => startsWithL sub (c :: rest) || containsSub sub rest

/-- Embeds the exception fallback of `_generar_matricula`:
`f"EST{int(time.time()) % 1000000:06d}"` for a call at Unix time `t`. -/
def matriculaFallback (t : Nat) : List Nat := cod "EST" ++ pad6 (t % 1000000)

/-!  File systems and synchronization.  The local and the remote file
trees are embedded as maps from path to optional byte content. -/
/-- A file system: map from path to optional byte content. -/
abbrev FS := String → Option (List Nat)

/-- Writing (creating or overwriting) one file. -/
def FS.write (fs : FS) (p : String) (v : List Nat) : FS :=
  fun q => if q = p then some v else fs q

/-- Removing one file (the source side of an SFTP rename). -/
def FS.erase (fs : FS) (p : String) : FS :=
  fun q => if q = p then none else fs q

/-- Outcome of one `sftp.get` call, as seen by the calling code. -/
inductive DescargaRes where
  | contenido (datos : List Nat)
  | noEncontrado
  | errorTransporte (msg : String)
deriving DecidableEq

/-- Outcome of `SistemaMigracion._descargar_base_datos`: `ok` embeds
`return True`, `noEncontrada` embeds the caught `FileNotFoundError`
(`return False`), `excepcion` embeds a re-raised exception. -/
inductive ResDescarga where
  | ok
  | noEncontrada
  | excepcion (msg : String)
deriving DecidableEq

/-- Embeds `SistemaMigracion._descargar_base_datos` (migracion40.py lines
329-357): back up the current local working copy to a timestamped sibling
when one exists (`shutil.copy2`), then let `sftp.get` write the downloaded
bytes directly over the local working path, then verify non-zero size and
raise when the downloaded file is empty. -/
def descargarBaseDatos (fs : FS) (remoto : DescargaRes) (rutaLocal ts : String) :
    FS × ResDescarga :=
  let fs1 := match fs rutaLocal with
    | some datos => fs.write (rutaLocal ++ ".backup_" ++ ts) datos
    | none => fs
  match remoto with
  | .noEncontrado => (fs1, .noEncontrada)
  | .errorTransporte msg => (fs1, .excepcion msg)
  | .contenido datos =>
      let fs2 := fs1.write rutaLocal datos
      if datos.length > 0 then (fs2, .ok)
      else (fs2, .excepcion "Archivo descargado vacio o no existe")

/-- The persisted per-system sync state (`EstadoPersistenteBase` fields
touched by the synchronization paths). -/
structure EstadoSync where
  dbInicializada : Bool
  sincronizada : Bool
  sshConectado : Bool
  sshError : Option String
  backupsRealizados : Nat
deriving DecidableEq

/-- Environment of one `sincronizar_desde_remoto` call (aspirantes40.py):
transport outcomes and the sqlite-level facts the byte model cannot see. -/
structure EntornoPull where
  conectarOk : Bool
  sftpOk : Bool
  espacioOk : Bool
  descarga : DescargaRes
  estructuraOk : List Nat → Bool
  inicializar : List Nat → List Nat
  nuevaDB : List Nat
  subirOk : Bool
  ts : String
  ts2 : String

/-- The fresh local temp path `aspirantes_temp_<timestamp>.db`. -/
def rutaTempAspirantes (ts : String) : String := "aspirantes_temp_" ++ ts ++ ".db"

/-- The fresh local temp path `aspirantes_nueva_<timestamp>.db`. -/
def rutaNuevaAspirantes (ts : String) : String := "aspirantes_nueva_" ++ ts ++ ".db"

/-- Result of the aspirantes pull: local tree, remote content of the store
file, the working-copy pointer `self.db_local_temp`, tracker, return value. -/
structure ResPull where
  fsLocal : FS
  remoto : Option (List Nat)
  dbLocalTemp : Option String
  estado : EstadoSync
  resultado : Bool

/-- Embeds `GestorBaseDatosAspirantes._crear_nueva_db_remota` (aspirantes40.py
lines 209-254): initialize a fresh local file, upload it, repoint the
working copy at it and mark the tracker on success; any failure returns
`False` leaving the working-copy pointer as it was. -/
def crearNuevaDbRemota (env : EntornoPull) (fs : FS) (remoto : Option (List Nat))
    (dbTemp : Option String) (est : EstadoSync) : ResPull :=
  let tempDb := rutaNuevaAspirantes env.ts2
  let fs1 := fs.write tempDb env.nuevaDB
  if ¬env.conectarOk then ⟨fs1, remoto, dbTemp, est, false⟩
  else if ¬env.sftpOk then ⟨fs1, remoto, dbTemp, est, false⟩
  else if ¬env.subirOk then ⟨fs1, remoto, dbTemp, est, false⟩
  else
    ⟨fs1, some env.nuevaDB, some tempDb,
     { est with
        dbInicializada := true
        sincronizada := true
        sshConectado := true
        sshError := none }, true⟩

/-- Embeds `GestorBaseDatosAspirantes.sincronizar_desde_remoto`
(aspirantes40.py lines 126-185): connect, repoint `db_local_temp` at a
fresh timestamped temp path, download into that fresh path, verify
non-zero size, initialize the schema inside the new file when the
aspirantes table is missing, fall back to creating a new store when the
download is empty or the remote file is absent; a transport error marks the
tracker disconnected with the error message and returns `False`. -/
def sincronizarDesdeRemoto (env : EntornoPull) (fs : FS)
    (remoto : Option (List Nat)) (dbTemp : Option String) (est : EstadoSync) :
    ResPull :=
  if ¬env.conectarOk then ⟨fs, remoto, dbTemp, est, false⟩
  else if ¬env.sftpOk then ⟨fs, remoto, dbTemp, est, false⟩
  else
    let nueva := rutaTempAspirantes env.ts
    if ¬env.espacioOk then ⟨fs, remoto, some nueva, est, false⟩
    else
      match env.descarga with
      | .contenido datos =>
          let fs1 := fs.write nueva datos
          if datos.length > 0 then
            let fs2 := if env.estructuraOk datos then fs1
                       else fs1.write nueva (env.inicializar datos)
            ⟨fs2, remoto, some nueva,
             { est with
                dbInicializada := true
                sincronizada := true
                sshConectado := true
                sshError := none }, true⟩
          else
            crearNuevaDbRemota env fs1 remoto (some nueva) est
      | .noEncontrado =>
          crearNuevaDbRemota env fs remoto (some nueva) est
      | .errorTransporte msg =>
          ⟨fs, remoto, some nueva,
           { est with sshConectado := false, sshError := some msg }, false⟩

/-- Environment of one `sincronizar_bases_datos` call (migracion40.py). -/
structure EntornoSync where
  sshEnabled : Bool
  conectarOk : Bool
  sftpOk : Bool
  rutas : String → Option String
  descargas : String → DescargaRes
  ts : String

/-- Embeds `config.get('retry_attempts', 3)` at the default configuration. -/
def RETRY_ATTEMPTS : Nat := 3

/-- Embeds `config.get('retry_delay', 5)` at the default configuration. -/
def RETRY_DELAY : Nat := 5

/-- The fixed store list of `sincronizar_bases_datos`. -/
def basesDatosASincronizar : List (String × String) :=
  [("escuela_db", "temp_escuela.db"),
   ("aspirantes_db", "temp_aspirantes.db"),
   ("inscritos_db", "temp_inscritos.db")]

/-- Embeds `SistemaMigracion.sincronizar_bases_datos` (migracion40.py lines
280-327).  The last component is the trace of download attempts: one entry
per `_descargar_base_datos` call, in order.  An exception from a per-store
download is caught and logged as a warning, after which the loop moves on;
the tracker is then marked synchronized and connected and `True` returned. -/
def sincronizarBasesDatos (env : EntornoSync) (fs : FS) (est : EstadoSync) :
    FS × EstadoSync × Bool × List String :=
  if ¬env.sshEnabled then (fs, est, false, [])
  else if ¬env.conectarOk then (fs, est, false, [])
  else if ¬env.sftpOk then (fs, est, false, [])
  else
    let paso := fun (acc : FS × List String) (par : String × String) =>
      match env.rutas par.1 with
      | none => acc
      | some _ =>
          ((descargarBaseDatos acc.1 (env.descargas par.1) par.2 env.ts).1,
           acc.2 ++ [par.1])
    let r := basesDatosASincronizar.foldl paso (fs, [])
    (r.1,
     { est with sincronizada := true, sshConectado := true, sshError := none },
     true, r.2)

/-- Environment of one push call. -/
structure EntornoPush where
  conectarOk : Bool
  sftpOk : Bool
  autoBackup : Bool
  ts : String

/-- Embeds `SistemaMigracion.subir_base_datos` (migracion40.py lines
381-419).  The pre-upload "remote backup" is made with
`sftp.get(ruta_remota, backup_remoto)`, which downloads the remote file to
a local path named like the remote backup path; a failure of that call is
caught and logged.  The upload itself is `sftp.put`. -/
def subirBaseDatos (env : EntornoPush) (fsLocal fsRemoto : FS)
    (rutaLocal : String) (rutaRemota : Option String) :
    FS × FS × Except String Bool :=
  match fsLocal rutaLocal with
  | none => (fsLocal, fsRemoto, .error "Archivo local no existe")
  | some datos =>
      if ¬env.conectarOk then
        (fsLocal, fsRemoto, .error "No se pudo conectar al servidor SSH")
      else if ¬env.sftpOk then
        (fsLocal, fsRemoto, .error "No se pudo obtener cliente SFTP")
      else
        match rutaRemota with
        | none => (fsLocal, fsRemoto, .error "No hay ruta remota configurada")
        | some ruta =>
            let rutaBackup := ruta ++ ".backup_" ++ env.ts
            let fsLocal1 := match fsRemoto ruta with
              | some prev => fsLocal.write rutaBackup prev
              | none => fsLocal
            (fsLocal1, fsRemoto.write ruta datos, .ok true)

/-- Embeds `GestorBaseDatosAspirantes.sincronizar_hacia_remoto`
(aspirantes40.py lines 443-483): when auto-backup is configured and a
remote file exists, `sftp.rename` moves it to a timestamped backup path
(and the tracker counts the backup); a rename failure is caught and only
logged; then `sftp.put` uploads the local working copy. -/
def sincronizarHaciaRemoto (env : EntornoPush) (fsLocal fsRemoto : FS)
    (dbTemp : Option String) (rutaRemota : String) (est : EstadoSync) :
    FS × FS × EstadoSync × Bool :=
  match dbTemp with
  | none => (fsLocal, fsRemoto, est, false)
  | some p =>
      match fsLocal p with
      | none => (fsLocal, fsRemoto, est, false)
      | some datos =>
          if ¬env.conectarOk then (fsLocal, fsRemoto, est, false)
          else if ¬env.sftpOk then (fsLocal, fsRemoto, est, false)
          else
            let rutaBackup := rutaRemota ++ ".backup_" ++ env.ts
            let r1 :=
              if env.autoBackup then
                match fsRemoto rutaRemota with
                | some prev =>
                    (((fsRemoto.erase rutaRemota).write rutaBackup prev),
                     { est with backupsRealizados := est.backupsRealizados + 1 })
                | none => (fsRemoto, est)
              else (fsRemoto, est)
            (fsLocal, r1.1.write rutaRemota datos,
             { r1.2 with sincronizada := true }, true)

/-!  Concrete stores and environments reused by several evaluations. -/
/-- A local tree holding one working copy with content 1,2,3. -/
def fsEscuelaEj : FS :=
  fun p => if p = "temp_escuela.db" then some [1, 2, 3] else none

/-- A zeroed tracker. -/
def estadoEj : EstadoSync := ⟨false, false, false, none, 0⟩

/-- A pull environment whose transport succeeds. -/
def envPullEj : EntornoPull :=
  ⟨true, true, true, .contenido [5], fun _ => true, id, [7], true,
   "20250102_000000", "20250103_000000"⟩

/-- A remote tree holding the aspirantes store with content 1. -/
def fsRemotoEj : FS :=
  fun p => if p = "/remoto/aspirantes.db" then some [1] else none

/-- A local tree holding the aspirantes working copy with content 2. -/
def fsLocalEj : FS :=
  fun p => if p = "aspirantes_temp.db" then some [2] else none

/-- A push environment whose transport succeeds, with auto-backup on. -/
def envPushEj : EntornoPush := ⟨true, true, true, "20250101_000000"⟩

/-- A sync environment in which every store has a configured remote path
and every download raises a transport error. -/
def envSyncFalla : EntornoSync :=
  ⟨true, true, true, fun k => some ("/remoto/" ++ k),
   fun _ => .errorTransporte "Connection reset", "20250101_000000"⟩

/-!  The migration control store (`migracion_control.db`) and the job
pipelines of `SistemaMigracion.ejecutar_migracion`. -/
/-- One row of the `migraciones` control table (the fields the claims
touch). -/
structure Migracion where
  id : Nat
  tipoMigracion : String
  estado : String
  totalRegistros : Nat
  registrosExitosos : Nat
  registrosFallidos : Nat
  errores : Option String
deriving DecidableEq

/-- One row of the append-only `registros_migrados` detail table. -/
structure RegistroMigrado where
  migracionId : Nat
  registroOrigenId : Option Nat
  registroDestinoId : Option Nat
  tablaOrigen : Option String
  tablaDestino : Option String
  estado : String
  errorMensaje : Option String
deriving DecidableEq

/-- One row of the `conflictos` table (only its job reference matters to
the claims). -/
structure Conflicto where
  migracionId : Nat
deriving DecidableEq

/-- The migration control store. -/
structure ControlDB where
  migraciones : List Migracion
  registros : List RegistroMigrado
  conflictos : List Conflicto
  nextMigracionId : Nat
deriving DecidableEq

/-- Embeds `SistemaMigracion._crear_registro_migracion`: insert a job row
in state `en_progreso` and return its fresh id (`cursor.lastrowid`). -/
def crearRegistroMigracion (db : ControlDB) (tipo : String) : ControlDB × Nat :=
  let mid := db.nextMigracionId
  ({ db with
      migraciones := db.migraciones ++ [⟨mid, tipo, "en_progreso", 0, 0, 0, none⟩]
      nextMigracionId := mid + 1 }, mid)

/-- Embeds the `_actualizar_registro_migracion` call that seals a finished
pass (migracion40.py lines 461-469): state `completada` when the handler
reported success, `fallida` otherwise, plus the counters from the result. -/
def sellarRegistroMigracion (db : ControlDB) (mid : Nat) (exito : Bool)
    (total exitosos fallidos : Nat) : ControlDB :=
  { db with
      migraciones := db.migraciones.map fun m =>
        if m.id = mid then
          { m with
              estado := if exito then "completada" else "fallida"
              totalRegistros := total
              registrosExitosos := exitosos
              registrosFallidos := fallidos }
        else m }

/-- Embeds the `_actualizar_registro_migracion` call in the exception
branch of `ejecutar_migracion` (lines 481-487): state `fallida` and the
error text, counters untouched. -/
def sellarRegistroFallido (db : ControlDB) (mid : Nat) (err : String) : ControlDB :=
  { db with
      migraciones := db.migraciones.map fun m =>
        if m.id = mid then { m with estado := "fallida", errores := some err }
        else m }

/-- Embeds `SistemaMigracion._registrar_registro_migrado`: append one
detail row (committed on the control connection immediately). -/
def registrarRegistroMigrado (db : ControlDB) (r : RegistroMigrado) : ControlDB :=
  { db with registros := db.registros ++ [r] }

/-- Embeds `SELECT * FROM migraciones WHERE id = ?`. -/
def buscarMigracion (db : ControlDB) (mid : Nat) : Option Migracion :=
  db.migraciones.find? (fun m => m.id == mid)

/-- Embeds `SELECT * FROM registros_migrados WHERE migracion_id = ?`
in processing order. -/
def registrosDeMigracion (db : ControlDB) (mid : Nat) : List RegistroMigrado :=
  db.registros.filter (fun r => r.migracionId == mid)

/-- Count of detail rows carrying a given outcome. -/
def cuentaEstado (rs : List RegistroMigrado) (est : String) : Nat :=
  rs.countP (fun r => r.estado == est)

/-- The structured per-handler result dictionary (`exito`, `total`,
`exitosos`, `fallidos`). -/
structure Resultado where
  exito : Bool
  total : Nat
  exitosos : Nat
  fallidos : Nat
deriving DecidableEq

/-- One row of the `estudiantes` table (the columns this engine reads or
writes; absent values embed SQL NULL). -/
structure Estudiante where
  id : Nat
  estadoEstudiante : String
  semestre : Option Nat
  promedio : Option Rat
  fechaIngreso : Option (List Nat)
  carrera : List Nat
  curp : Option (List Nat)
  matricula : Option (List Nat)

/-- One row of the `egresados` table. -/
structure Egresado where
  id : Nat
  estudianteId : Nat

/-- The escuela store. -/
structure EscuelaDB where
  estudiantes : List Estudiante
  egresados : List Egresado
  nextEgresadoId : Nat
  nextEstudianteId : Nat

/-- The criteria block of an estudiantes-to-egresados configuration.
A `some` embeds a configured truthy value (the source skips a criterion
whose configured value is falsy, so absent and falsy coincide here). -/
structure CriteriosEstudiantes where
  estadoEstudiante : Option String
  semestreMinimo : Option Nat
  promedioMinimo : Option Rat
  fechaIngresoMaxima : Option (List Nat)

/-- Embeds the WHERE clause built by `_migrar_estudiantes_a_egresados`
(AND-combined; comparisons against a NULL column are SQL-false). -/
def cumpleCriteriosEstudiante (c : CriteriosEstudiantes) (e : Estudiante) : Bool :=
  (match c.estadoEstudiante with
   | none => true
   | some v => e.estadoEstudiante == v) &&
  (match c.semestreMinimo, e.semestre with
   | none, _ => true
   | some _, none => false
   | some v, some s => decide (v ≤ s)) &&
  (match c.promedioMinimo, e.promedio with
   | none, _ => true
   | some _, none => false
   | some v, some p => decide (v ≤ p)) &&
  (match c.fechaIngresoMaxima, e.fechaIngreso with
   | none, _ => true
   | some _, none => false
   | some v, some f => lexLe f v)

/-- Loop state of one handler pass over the escuela store. -/
structure EstadoPaso where
  esc : EscuelaDB
  ctrl : ControlDB
  exitosos : Nat
  fallidos : Nat

/-- Embeds one iteration of the `for estudiante in estudiantes` loop of
`_migrar_estudiantes_a_egresados` (lines 603-665).  A record whose
destination row already exists is skipped with an in-memory detail entry
only: no `registros_migrados` row is written for it.  `falla e = some msg`
embeds a per-record exception (for example an IntegrityError from the
insert), logged as a `fallido` detail row. -/
def pasoEstudianteAEgresado (mid : Nat) (falla : Estudiante → Option String)
    (st : EstadoPaso) (e : Estudiante) : EstadoPaso :=
  if 0 < st.esc.egresados.countP (fun g => g.estudianteId == e.id) then
    st
  else
    match falla e with
    | some msg =>
        { st with
            fallidos := st.fallidos + 1
            ctrl := registrarRegistroMigrado st.ctrl
              ⟨mid, some e.id, none, some "estudiantes", some "egresados",
               "fallido", some msg⟩ }
    | none =>
        let gid := st.esc.nextEgresadoId
        { esc :=
            { st.esc with
                estudiantes := st.esc.estudiantes.map fun s =>
                  if s.id = e.id then { s with estadoEstudiante := "Egresado" }
                  else s
                egresados := st.esc.egresados ++ [⟨gid, e.id⟩]
                nextEgresadoId := gid + 1 }
          ctrl := registrarRegistroMigrado st.ctrl
            ⟨mid, some e.id, some gid, some "estudiantes", some "egresados",
             "exitoso", none⟩
          exitosos := st.exitosos + 1
          fallidos := st.fallidos }

/-- Embeds `SistemaMigracion._migrar_estudiantes_a_egresados` (lines
563-682): select by criteria, process each selected row, report
`exito = exitosos > 0` with `total` the size of the selection. -/
def migrarEstudiantesAEgresados (mid : Nat) (crit : CriteriosEstudiantes)
    (falla : Estudiante → Option String) (esc : EscuelaDB) (ctrl : ControlDB) :
    EscuelaDB × ControlDB × Resultado :=
  let seleccion := esc.estudiantes.filter (cumpleCriteriosEstudiante crit)
  let fin := seleccion.foldl (pasoEstudianteAEgresado mid falla) ⟨esc, ctrl, 0, 0⟩
  (fin.esc, fin.ctrl,
   ⟨decide (0 < fin.exitosos), seleccion.length, fin.exitosos, fin.fallidos⟩)

/-- Embeds `ejecutar_migracion` specialized to the dispatch branch
`tipo_migracion == 'estudiantes_a_egresados'`: create the job row, run the
handler, seal the job from the result; a handler exception (here: the
escuela store is not connected) seals the job `fallida` and re-raises. -/
def ejecutarMigracionEstudiantes (crit : CriteriosEstudiantes)
    (falla : Estudiante → Option String) (esc : Option EscuelaDB)
    (ctrl : ControlDB) :
    Option EscuelaDB × ControlDB × Except String Resultado :=
  let par := crearRegistroMigracion ctrl "estudiantes_a_egresados"
  match esc with
  | none =>
      (none,
       sellarRegistroFallido par.1 par.2 "Base de datos de escuela no disponible",
       .error "Base de datos de escuela no disponible")
  | some db =>
      let r := migrarEstudiantesAEgresados par.2 crit falla db par.1
      (some r.1,
       sellarRegistroMigracion r.2.1 par.2 r.2.2.exito r.2.2.total
         r.2.2.exitosos r.2.2.fallidos,
       .ok r.2.2)

/-- SQL equality between two nullable values (`a = b` is SQL-false when
either side is NULL). -/
def eqNN : Option (List Nat) → Option (List Nat) → Bool
  | some x, some y => x == y
  | _, _ => false

/-- The migration kinds accepted by the validity check of
`ejecutar_migracion` (migracion40.py lines 66-73). -/
def TIPOS_MIGRACION : List String :=
  ["estudiantes_a_egresados",
   "egresados_a_contratados",
   "aspirantes_a_estudiantes",
   "consolidar_bases",
   "limpiar_duplicados",
   "migrar_historico"]

/-- The handler methods `SistemaMigracion` actually defines (from the
class body of migracion40.py); `_migrar_egresados_a_contratados`, which the
dispatch chain calls, is not among them. -/
def metodosMigracionDefinidos : List String :=
  ["_migrar_estudiantes_a_egresados",
   "_migrar_aspirantes_a_estudiantes",
   "_consolidar_bases_datos",
   "_limpiar_duplicados",
   "_migrar_historico"]

/-- Embeds `ejecutar_migracion` specialized to the dispatch branch
`tipo_migracion == 'egresados_a_contratados'`: the kind passes the
validity check, a job row is created, and the branch then looks up the
attribute `_migrar_egresados_a_contratados` on the class; the class does
not define it, so the lookup raises AttributeError, which the exception
branch turns into a `fallida` seal and a re-raise.  The `true` arm of the
attribute test is unreachable and returns a placeholder. -/
def ejecutarMigracionEgresadosAContratados (ctrl : ControlDB) :
    ControlDB × Except String Resultado :=
  if "egresados_a_contratados" ∉ TIPOS_MIGRACION then
    (ctrl, .error "Tipo de migracion no valido: egresados_a_contratados")
  else
    let par := crearRegistroMigracion ctrl "egresados_a_contratados"
    if "_migrar_egresados_a_contratados" ∈ metodosMigracionDefinidos then
      (par.1, .ok ⟨true, 0, 0, 0⟩)
    else
      (sellarRegistroFallido par.1 par.2
         "AttributeError: _migrar_egresados_a_contratados",
       .error "AttributeError: _migrar_egresados_a_contratados")

/-- The report summary block built by `generar_reporte_migracion`. -/
structure ResumenReporte where
  totalRegistros : Nat
  exitosos : Nat
  fallidos : Nat
  omitidos : Nat
  conflictos : Nat
deriving DecidableEq

/-- The structured report of one job. -/
structure Reporte where
  migracion : Migracion
  resumen : ResumenReporte
  registros : List RegistroMigrado
  conflictos : List Conflicto
deriving DecidableEq

/-- Embeds `SistemaMigracion.generar_reporte_migracion` (lines 1256-1301):
the summary is computed over ALL detail rows of the job, while the
`registros` list returned is truncated to the first 100 rows. -/
def generarReporteMigracion (db : ControlDB) (mid : Nat) :
    Except String Reporte :=
  match buscarMigracion db mid with
  | none => .error "Migracion no encontrada"
  | some m =>
      let registros := registrosDeMigracion db mid
      let conflictos := db.conflictos.filter (fun c => c.migracionId == mid)
      .ok
        { migracion := m
          resumen :=
            ⟨registros.length,
             cuentaEstado registros "exitoso",
             cuentaEstado registros "fallido",
             cuentaEstado registros "omitido",
             conflictos.length⟩
          registros := registros.take 100
          conflictos := conflictos }

/-- A student row carrying only an id, an active state and a career. -/
def estudianteEj (i : Nat) : Estudiante :=
  ⟨i, "Activo", none, none, none, cod "GEN", none, none⟩

/-- A store with one student, already graduated. -/
def escSoloOmitidos : EscuelaDB := ⟨[estudianteEj 1], [⟨5, 1⟩], 6, 2⟩

/-- An empty criteria block: every student matches. -/
def critVacios : CriteriosEstudiantes := ⟨none, none, none, none⟩

/-- An empty control store. -/
def ctrlVacio : ControlDB := ⟨[], [], [], 1⟩

/-- One exitoso detail row of job 1. -/
def regEj : RegistroMigrado :=
  ⟨1, some 1, some 1, some "estudiantes", some "egresados", "exitoso", none⟩

/-- The job row of a completed 101-record migration. -/
def migEj : Migracion := ⟨1, "estudiantes_a_egresados", "completada", 101, 101, 0, none⟩

/-- A control store holding one job with 101 detail rows. -/
def ctrl101 : ControlDB := ⟨[migEj], List.replicate 101 regEj, [], 2⟩

/-- The report the engine produces for that job. -/
def rep101 : Reporte := ⟨migEj, ⟨101, 101, 0, 0, 0⟩, List.replicate 100 regEj, []⟩

/-!  Consolidation (`SistemaMigracion._consolidar_bases_datos`,
migracion40.py lines 860-968). -/
/-- One row of a source store's primary table: its id and the full row as
the opaque blob `json.dumps(dict(registro))` stores it. -/
structure RegistroOrigen where
  id : Nat
  blob : String

/-- A source store as the consolidation pass sees it: the first table
reported by sqlite_master and that table's rows. -/
structure BaseOrigen where
  tabla : String
  registros : List RegistroOrigen

/-- One row of the consolidated destination table (which lives in the
migration control store and is UNIQUE on origen_tabla, origen_id). -/
structure RegistroConsolidado where
  origenTabla : String
  origenId : Nat
  tipoRegistro : String
  datosCompletos : String
deriving DecidableEq

/-- Embeds the key check `SELECT COUNT(*) FROM <dest> WHERE origen_tabla = ?
AND origen_id = ?`. -/
def claveEn (dest : List RegistroConsolidado) (t : String) (i : Nat) : Bool :=
  0 < dest.countP (fun d => d.origenTabla == t && d.origenId == i)

/-- Loop state of one consolidation pass: the destination table, the
control store receiving the detail rows, and the two counters. -/
structure EstadoConsolidar where
  dest : List RegistroConsolidado
  ctrl : ControlDB
  total : Nat
  exitosos : Nat

/-- Embeds one iteration of the `for registro in registros` loop (lines
907-951): a record already consolidated under its key is skipped with
`continue` (which also skips the total counter); otherwise the record is
inserted and a detail row written; a per-record exception (`falla`) writes
a fallido detail row instead; `total` counts only non-skipped records. -/
def pasoConsolidar (mid : Nat) (falla : RegistroOrigen → Option String)
    (base tabla tablaDestino : String) (st : EstadoConsolidar)
    (r : RegistroOrigen) : EstadoConsolidar :=
  if claveEn st.dest (base ++ "." ++ tabla) r.id then st
  else
    match falla r with
    | some msg =>
        { st with
            total := st.total + 1
            ctrl := registrarRegistroMigrado st.ctrl
              ⟨mid, some r.id, none, some (base ++ "." ++ tabla),
               some tablaDestino, "fallido", some msg⟩ }
    | none =>
        { st with
            dest := st.dest ++ [⟨base ++ "." ++ tabla, r.id, base, r.blob⟩]
            total := st.total + 1
            exitosos := st.exitosos + 1
            ctrl := registrarRegistroMigrado st.ctrl
              ⟨mid, some r.id, some (st.dest.length + 1),
               some (base ++ "." ++ tabla), some tablaDestino, "exitoso", none⟩ }

/-- Embeds the `for base_nombre in bases_origen` body: an unavailable store
is skipped, otherwise its primary table is consolidated row by row. -/
def consolidarBase (mid : Nat) (falla : RegistroOrigen → Option String)
    (tablaDestino : String) (conexiones : String → Option BaseOrigen)
    (st : EstadoConsolidar) (nombre : String) : EstadoConsolidar :=
  match conexiones nombre with
  | none => st
  | some b => b.registros.foldl (pasoConsolidar mid falla nombre b.tabla tablaDestino) st

/-- Embeds `SistemaMigracion._consolidar_bases_datos`: fold the source
stores into the destination table and report
`exito = exitosos > 0`, `fallidos = total - exitosos`. -/
def consolidarBasesDatos (mid : Nat) (falla : RegistroOrigen → Option String)
    (conexiones : String → Option BaseOrigen) (basesOrigen : List String)
    (tablaDestino : String) (dest : List RegistroConsolidado) (ctrl : ControlDB) :
    List RegistroConsolidado × ControlDB × Resultado :=
  let fin := basesOrigen.foldl (consolidarBase mid falla tablaDestino conexiones)
    ⟨dest, ctrl, 0, 0⟩
  (fin.dest, fin.ctrl,
   ⟨decide (0 < fin.exitosos), fin.total, fin.exitosos, fin.total - fin.exitosos⟩)

/-!  Deduplication (`SistemaMigracion._limpiar_duplicados`, migracion40.py
lines 970-1066).  The model embeds the per-table body: scan the columns,
and for each column whose name contains a natural-key keyword, group rows
by that column, and for every group of two or more keep the survivor and
delete the rest by id (`DELETE FROM <tabla> WHERE id = ?`).  The survivor
branch embedded is the `ORDER BY id DESC` one (a table without a
fecha_creacion column); the fecha branch differs only in which single row
of the group survives.  Each delete also logs one detail row via
`_registrar_registro_migrado`; the model counts the deletes (the
`total_eliminados` counter). -/
/-- One row of a scanned table: its primary key and its value in each
column, with `none` embedding SQL NULL.  Column names are code-point
lists, as the heuristic lowercases them. -/
structure Fila where
  id : Nat
  val : List Nat → Option (List Nat)

/-- A scanned table: its column list (PRAGMA table_info order) and rows. -/
structure TablaDB where
  columnas : List (List Nat)
  filas : List Fila

/-- The keyword list of the natural-key heuristic. -/
def palabrasClave : List (List Nat) :=
  [cod "id", cod "codigo", cod "matricula", cod "curp", cod "rfc",
   cod "email", cod "unique"]

/-- Embeds `any(keyword in col_name for keyword in [...])` over the
lowercased column name. -/
def esColumnaUnica (col : List Nat) : Bool :=
  palabrasClave.any (fun k => containsSub k (col.map toLowerN))

/-- Embeds `SELECT <col>, COUNT(*) ... GROUP BY <col> HAVING cnt > 1`:
the distinct column values (the NULL group included) held by two or more
rows, in first-appearance order. -/
def valoresDuplicados (filas : List Fila) (col : List Nat) :
    List (Option (List Nat)) :=
  ((filas.map (fun r => r.val col)).dedup).filter
    (fun v => 1 < (filas.map (fun r => r.val col)).count v)

/-- The id `ORDER BY id DESC LIMIT`-first row of a group carries. -/
def maxIdGrupo (g : List Fila) : Nat := (g.map (fun r => r.id)).foldl max 0

/-- Embeds the body of `for valor, cnt in duplicados` (lines 1011-1047):
re-query the current rows holding the value (`WHERE <col> = ?` rejects the
NULL group), keep the first under descending id order, and delete the
remaining ids one by one, counting each delete. -/
def eliminarValor (col : List Nat) (par : List Fila × Nat)
    (v : Option (List Nat)) : List Fila × Nat :=
  let grupo := par.1.filter (fun r => eqNN (r.val col) v)
  if 1 < grupo.length then
    let mantener := maxIdGrupo grupo
    let eliminar := (grupo.map (fun r => r.id)).filter (fun i => decide (i ≠ mantener))
    (par.1.filter (fun r => decide (r.id ∉ eliminar)), par.2 + eliminar.length)
  else par

/-- Embeds the per-column body: columns failing the keyword heuristic are
skipped, otherwise every duplicated value group is reduced to one row. -/
def limpiarColumna (par : List Fila × Nat) (col : List Nat) : List Fila × Nat :=
  if esColumnaUnica col then
    (valoresDuplicados par.1 col).foldl (eliminarValor col) par
  else par

/-- Embeds one full deduplication pass over one table, returning the
surviving rows and the number of deletes performed. -/
def limpiarTabla (t : TablaDB) : TablaDB × Nat :=
  let par := t.columnas.foldl limpiarColumna (t.filas, 0)
  (⟨t.columnas, par.1⟩, par.2)

/-- Number of current rows holding a given non-NULL value in a column. -/
def cuentaVal (fs : List Fila) (col v : List Nat) : Nat :=
  fs.countP (fun r => eqNN (r.val col) (some v))

/-- A row holding its id and an email value. -/
def filaEj (i : Nat) (correo : List Nat) : Fila :=
  ⟨i, fun c => if c = cod "email" then some correo
      else if c = cod "id" then some (natToDigits i) else none⟩

/-- A table with an id column and an email column, two rows sharing the
same email. -/
def tablaEj : TablaDB :=
  ⟨[cod "id", cod "email"],
   [filaEj 1 (cod "ana@x.mx"), filaEj 2 (cod "ana@x.mx"),
    filaEj 3 (cod "benito@x.mx")]⟩

theorem startsWithL_append (p s : List Nat) : startsWithL p (p ++ s) = true := by
  induction p with
  | nil => rfl
  | cons a as ih => simp [startsWithL, ih]

theorem startsWithL_iff (p s : List Nat) :
    startsWithL p s = true ↔ ∃ r, s = p ++ r := by
  constructor
  · intro h
    induction p generalizing s with
    | nil => exact ⟨s, rfl⟩
    | cons a as ih =>
        cases s with
        | nil => simp [startsWithL] at h
        | cons b bs =>
            simp only [startsWithL] at h
            by_cases hab : a = b
            · subst hab
              simp only [if_pos rfl] at h
              obtain ⟨r, hr⟩ := ih bs h
              exact ⟨r, by simp [hr]⟩
            · simp [hab] at h
  · rintro ⟨r, rfl⟩
    exact startsWithL_append p r

theorem FS.write_same (fs : FS) (p : String) (v : List Nat) :
    fs.write p v p = some v := by simp [FS.write]

theorem FS.write_other (fs : FS) {p q : String} (v : List Nat) (h : q ≠ p) :
    fs.write p v q = fs q := by simp [FS.write, h]

theorem FS.erase_other (fs : FS) {p q : String} (h : q ≠ p) :
    fs.erase p q = fs q := by simp [FS.erase, h]

theorem String.ne_append_of_ne_empty (s t : String) (ht : t.length ≠ 0) :
    s ≠ s ++ t := by
  intro h
  have := congrArg String.length h
  rw [String.length_append] at this
  omega

/-- C1 counterexample: a migration-path Pull attempt whose download is an
empty file fails verification, yet the local working copy afterwards holds
the empty download instead of its previous bytes. -/
theorem c1_counterexample :
    (descargarBaseDatos fsEscuelaEj (.contenido []) "temp_escuela.db"
        "20250101_000000").2
      = .excepcion "Archivo descargado vacio o no existe" ∧
    fsEscuelaEj "temp_escuela.db" = some [1, 2, 3] ∧
    (descargarBaseDatos fsEscuelaEj (.contenido []) "temp_escuela.db"
        "20250101_000000").1 "temp_escuela.db" = some [] := by decide

/-- C1 amended: a migration-path Pull attempt that fails verification on an
empty download overwrites the working copy in place with the empty file;
the pre-attempt content survives only in the timestamped backup sibling.
On the aspirantes path every pull writes only fresh timestamped temp paths,
so the bytes at the previous working-copy path are unchanged under every
outcome. -/
theorem c1_pull_overwrites_in_place
    (fs : FS) (rutaLocal ts : String) (prev : List Nat)
    (hprev : fs rutaLocal = some prev)
    (env : EntornoPull) (fsA : FS) (remoto : Option (List Nat))
    (dbTempPrev : Option String) (est : EstadoSync) (q : String)
    (hq1 : q ≠ rutaTempAspirantes env.ts)
    (hq2 : q ≠ rutaNuevaAspirantes env.ts2) :
    (descargarBaseDatos fs (.contenido []) rutaLocal ts).2
        = .excepcion "Archivo descargado vacio o no existe" ∧
    (descargarBaseDatos fs (.contenido []) rutaLocal ts).1 rutaLocal = some [] ∧
    (descargarBaseDatos fs (.contenido []) rutaLocal ts).1
        (rutaLocal ++ ".backup_" ++ ts) = some prev ∧
    (sincronizarDesdeRemoto env fsA remoto dbTempPrev est).fsLocal q = fsA q := by
  have hne : rutaLocal ≠ rutaLocal ++ ".backup_" ++ ts := by
    intro h
    have h' := congrArg String.length h
    rw [String.length_append, String.length_append] at h'
    have h8 : String.length ".backup_" = 8 := by decide
    omega
  refine ⟨?_, ?_, ?_, ?_⟩
  · simp [descargarBaseDatos, hprev]
  · simp [descargarBaseDatos, hprev, FS.write_same]
  · simp only [descargarBaseDatos, hprev, List.length_nil, gt_iff_lt,
      Nat.lt_irrefl, if_false]
    rw [FS.write_other _ _ (Ne.symm hne)]
    exact FS.write_same _ _ _
  · obtain ⟨co, so, eo, des, estr, ini, nueva, sub, t1, t2⟩ := env
    simp only at hq1 hq2
    have hw : ∀ (g : FS) (v : List Nat), FS.write g (rutaTempAspirantes t1) v q = g q :=
      fun g v => FS.write_other g v hq1
    have hw2 : ∀ (g : FS) (v : List Nat), FS.write g (rutaNuevaAspirantes t2) v q = g q :=
      fun g v => FS.write_other g v hq2
    simp only [sincronizarDesdeRemoto, crearNuevaDbRemota]
    cases des with
    | contenido datos =>
        by_cases hco : co = true <;> by_cases hso : so = true <;>
        by_cases heo : eo = true <;> by_cases hlen : 0 < datos.length <;>
        by_cases hestr : estr datos = true <;> by_cases hsub : sub = true <;>
        simp [hco, hso, heo, hlen, hestr, hsub, hw, hw2]
    | noEncontrado =>
        by_cases hco : co = true <;> by_cases hso : so = true <;>
        by_cases heo : eo = true <;> by_cases hsub : sub = true <;>
        simp [hco, hso, heo, hsub, hw, hw2]
    | errorTransporte msg =>
        by_cases hco : co = true <;> by_cases hso : so = true <;>
        by_cases heo : eo = true <;> simp [hco, hso, heo, hw, hw2]

/-- C1 witness: the amended theorem applied at a concrete local tree,
empty-file download and fresh temp paths. -/
theorem c1_witness :
    (descargarBaseDatos fsEscuelaEj (.contenido []) "temp_escuela.db"
        "20250101_000000").2
      = .excepcion "Archivo descargado vacio o no existe" ∧
    (descargarBaseDatos fsEscuelaEj (.contenido []) "temp_escuela.db"
        "20250101_000000").1 "temp_escuela.db" = some [] ∧
    (descargarBaseDatos fsEscuelaEj (.contenido []) "temp_escuela.db"
        "20250101_000000").1
        ("temp_escuela.db" ++ ".backup_" ++ "20250101_000000") = some [1, 2, 3] ∧
    (sincronizarDesdeRemoto envPullEj fsEscuelaEj none none estadoEj).fsLocal
        "temp_escuela.db" = fsEscuelaEj "temp_escuela.db" :=
  c1_pull_overwrites_in_place fsEscuelaEj "temp_escuela.db" "20250101_000000"
    [1, 2, 3] (by decide) envPullEj fsEscuelaEj none none estadoEj
    "temp_escuela.db" (by decide) (by decide)

/-- C2: evaluation at the failing input.  The migration-path push succeeds
with a pre-existing remote file, yet afterwards no backup exists at the
remote location: the pre-push remote content was downloaded into a LOCAL
file named like the remote backup path, because the code calls sftp.get
where its own log message says a remote backup was created.  The
aspirantes-path push does create the remote backup via sftp.rename, and a
missing remote file (failed backup) does not abort that push. -/
theorem c2_code_bug_eval :
    (subirBaseDatos envPushEj fsLocalEj fsRemotoEj "aspirantes_temp.db"
        (some "/remoto/aspirantes.db")).2.2 = .ok true ∧
    fsRemotoEj "/remoto/aspirantes.db" = some [1] ∧
    (subirBaseDatos envPushEj fsLocalEj fsRemotoEj "aspirantes_temp.db"
        (some "/remoto/aspirantes.db")).2.1
        "/remoto/aspirantes.db.backup_20250101_000000" = none ∧
    (subirBaseDatos envPushEj fsLocalEj fsRemotoEj "aspirantes_temp.db"
        (some "/remoto/aspirantes.db")).1
        "/remoto/aspirantes.db.backup_20250101_000000" = some [1] ∧
    (subirBaseDatos envPushEj fsLocalEj fsRemotoEj "aspirantes_temp.db"
        (some "/remoto/aspirantes.db")).2.1 "/remoto/aspirantes.db" = some [2] ∧
    (sincronizarHaciaRemoto envPushEj fsLocalEj fsRemotoEj
        (some "aspirantes_temp.db") "/remoto/aspirantes.db" estadoEj).2.2.2
      = true ∧
    (sincronizarHaciaRemoto envPushEj fsLocalEj fsRemotoEj
        (some "aspirantes_temp.db") "/remoto/aspirantes.db" estadoEj).2.1
        "/remoto/aspirantes.db.backup_20250101_000000" = some [1] ∧
    (sincronizarHaciaRemoto envPushEj fsLocalEj fsRemotoEj
        (some "aspirantes_temp.db") "/remoto/aspirantes.db" estadoEj).2.1
        "/remoto/aspirantes.db" = some [2] ∧
    (sincronizarHaciaRemoto envPushEj fsLocalEj (fun _ => none)
        (some "aspirantes_temp.db") "/remoto/aspirantes.db" estadoEj).2.2.2
      = true := by
  refine ⟨rfl, rfl, rfl, rfl, rfl, rfl, rfl, rfl, rfl⟩

/-- C5 counterexample: with every download raising a transport error, each
store is attempted exactly once (no retry, although the configured
RETRY_ATTEMPTS default is 3), the sync still returns True and the tracker
is marked connected with no error recorded. -/
theorem c5_counterexample :
    (sincronizarBasesDatos envSyncFalla (fun _ => none) estadoEj).2.2.2
      = ["escuela_db", "aspirantes_db", "inscritos_db"] ∧
    ((sincronizarBasesDatos envSyncFalla (fun _ => none) estadoEj).2.2.2.count
        "escuela_db" = 1 ∧ 1 < RETRY_ATTEMPTS) ∧
    (sincronizarBasesDatos envSyncFalla (fun _ => none) estadoEj).2.2.1
      = true ∧
    (sincronizarBasesDatos envSyncFalla (fun _ => none) estadoEj).2.1.sshConectado
      = true ∧
    (sincronizarBasesDatos envSyncFalla (fun _ => none) estadoEj).2.1.sshError
      = none := by
  refine ⟨rfl, ⟨rfl, by decide⟩, rfl, rfl, rfl⟩

/-- C5 amended: the retry constants are loaded (defaults 3 and 5) but never
consulted: each configured store gets exactly one download attempt per sync
regardless of outcome, and a sync whose downloads all fail still returns
True with the tracker marked connected; only an exception inside the
aspirantes pull body (for example a transport error from sftp.get) updates
the tracker to connected=false with the error message and returns False. -/
theorem c5_no_retry
    (env : EntornoSync) (fs : FS) (est : EstadoSync)
    (h1 : env.sshEnabled = true) (h2 : env.conectarOk = true)
    (h3 : env.sftpOk = true)
    (envP : EntornoPull) (fsA : FS) (remoto : Option (List Nat))
    (dbTemp : Option String) (estA : EstadoSync) (msg : String)
    (hA1 : envP.conectarOk = true) (hA2 : envP.sftpOk = true)
    (hA3 : envP.espacioOk = true)
    (hA4 : envP.descarga = .errorTransporte msg) :
    (RETRY_ATTEMPTS = 3 ∧ RETRY_DELAY = 5) ∧
    (sincronizarBasesDatos env fs est).2.2.2
      = (basesDatosASincronizar.filter
          (fun par => (env.rutas par.1).isSome)).map Prod.fst ∧
    (sincronizarBasesDatos env fs est).2.2.1 = true ∧
    (sincronizarBasesDatos env fs est).2.1.sshConectado = true ∧
    (sincronizarBasesDatos env fs est).2.1.sshError = none ∧
    (sincronizarDesdeRemoto envP fsA remoto dbTemp estA).resultado = false ∧
    (sincronizarDesdeRemoto envP fsA remoto dbTemp estA).estado.sshConectado
      = false ∧
    (sincronizarDesdeRemoto envP fsA remoto dbTemp estA).estado.sshError
      = some msg := by
  refine ⟨⟨rfl, rfl⟩, ?_, ?_, ?_, ?_, ?_, ?_, ?_⟩ <;>
    simp only [sincronizarBasesDatos, sincronizarDesdeRemoto,
      basesDatosASincronizar, h1, h2, h3, hA1, hA2, hA3, hA4] <;>
    (cases hr1 : env.rutas "escuela_db" <;>
     cases hr2 : env.rutas "aspirantes_db" <;>
     cases hr3 : env.rutas "inscritos_db" <;>
     simp [hr1, hr2, hr3])

/-- C5 witness: the amended theorem applied at the all-failing transport
environment and a concrete aspirantes pull hitting a transport error. -/
theorem c5_witness :
    (RETRY_ATTEMPTS = 3 ∧ RETRY_DELAY = 5) ∧
    (sincronizarBasesDatos envSyncFalla (fun _ => none) estadoEj).2.2.2
      = (basesDatosASincronizar.filter
          (fun par => ((envSyncFalla).rutas par.1).isSome)).map Prod.fst ∧
    (sincronizarBasesDatos envSyncFalla (fun _ => none) estadoEj).2.2.1 = true ∧
    (sincronizarBasesDatos envSyncFalla (fun _ => none) estadoEj).2.1.sshConectado
      = true ∧
    (sincronizarBasesDatos envSyncFalla (fun _ => none) estadoEj).2.1.sshError
      = none ∧
    (sincronizarDesdeRemoto ⟨true, true, true,
        .errorTransporte "Connection reset", fun _ => true, id, [7], true,
        "20250102_000000", "20250103_000000"⟩ (fun _ => none) none none
        estadoEj).resultado = false ∧
    (sincronizarDesdeRemoto ⟨true, true, true,
        .errorTransporte "Connection reset", fun _ => true, id, [7], true,
        "20250102_000000", "20250103_000000"⟩ (fun _ => none) none none
        estadoEj).estado.sshConectado = false ∧
    (sincronizarDesdeRemoto ⟨true, true, true,
        .errorTransporte "Connection reset", fun _ => true, id, [7], true,
        "20250102_000000", "20250103_000000"⟩ (fun _ => none) none none
        estadoEj).estado.sshError = some "Connection reset" :=
  c5_no_retry envSyncFalla (fun _ => none) estadoEj rfl rfl rfl
    ⟨true, true, true, .errorTransporte "Connection reset", fun _ => true,
     id, [7], true, "20250102_000000", "20250103_000000"⟩
    (fun _ => none) none none estadoEj "Connection reset" rfl rfl rfl rfl

/-!  Counting lemmas for the detail table and the job-row lookup. -/
theorem cuenta_registrar (db : ControlDB) (r : RegistroMigrado) (mid : Nat)
    (est : String) :
    cuentaEstado (registrosDeMigracion (registrarRegistroMigrado db r) mid) est
      = cuentaEstado (registrosDeMigracion db mid) est +
        (if r.migracionId = mid ∧ r.estado = est then 1 else 0) := by
  by_cases hm : r.migracionId = mid <;> by_cases he : r.estado = est <;>
    simp [cuentaEstado, registrosDeMigracion, registrarRegistroMigrado,
      List.filter_append, List.countP_append, hm, he]

theorem registrar_migraciones (db : ControlDB) (r : RegistroMigrado) :
    (registrarRegistroMigrado db r).migraciones = db.migraciones := rfl

/-- Invariant of the estudiantes loop: job rows untouched, the numbers of
exitoso and fallido detail rows grow exactly with the two counters, no
omitido row is ever written, and at most one counter tick happens per
processed record. -/
theorem fold_est_inv (mid : Nat) (falla : Estudiante → Option String)
    (l : List Estudiante) :
    ∀ st : EstadoPaso,
      ((l.foldl (pasoEstudianteAEgresado mid falla) st).ctrl.migraciones
          = st.ctrl.migraciones) ∧
      (cuentaEstado (registrosDeMigracion
            (l.foldl (pasoEstudianteAEgresado mid falla) st).ctrl mid) "exitoso"
          + st.exitosos
        = cuentaEstado (registrosDeMigracion st.ctrl mid) "exitoso"
          + (l.foldl (pasoEstudianteAEgresado mid falla) st).exitosos) ∧
      (cuentaEstado (registrosDeMigracion
            (l.foldl (pasoEstudianteAEgresado mid falla) st).ctrl mid) "fallido"
          + st.fallidos
        = cuentaEstado (registrosDeMigracion st.ctrl mid) "fallido"
          + (l.foldl (pasoEstudianteAEgresado mid falla) st).fallidos) ∧
      (cuentaEstado (registrosDeMigracion
            (l.foldl (pasoEstudianteAEgresado mid falla) st).ctrl mid) "omitido"
        = cuentaEstado (registrosDeMigracion st.ctrl mid) "omitido") ∧
      ((l.foldl (pasoEstudianteAEgresado mid falla) st).exitosos
          + (l.foldl (pasoEstudianteAEgresado mid falla) st).fallidos
        ≤ st.exitosos + st.fallidos + l.length) := by
  induction l with
  | nil => intro st; simp
  | cons e l ih =>
      intro st
      rw [List.foldl_cons]
      obtain ⟨ih1, ih2, ih3, ih4, ih5⟩ := ih (pasoEstudianteAEgresado mid falla st e)
      have hstep :
          (pasoEstudianteAEgresado mid falla st e).ctrl.migraciones
              = st.ctrl.migraciones ∧
          cuentaEstado (registrosDeMigracion
                (pasoEstudianteAEgresado mid falla st e).ctrl mid) "exitoso"
              + st.exitosos
            = cuentaEstado (registrosDeMigracion st.ctrl mid) "exitoso"
              + (pasoEstudianteAEgresado mid falla st e).exitosos ∧
          cuentaEstado (registrosDeMigracion
                (pasoEstudianteAEgresado mid falla st e).ctrl mid) "fallido"
              + st.fallidos
            = cuentaEstado (registrosDeMigracion st.ctrl mid) "fallido"
              + (pasoEstudianteAEgresado mid falla st e).fallidos ∧
          cuentaEstado (registrosDeMigracion
                (pasoEstudianteAEgresado mid falla st e).ctrl mid) "omitido"
            = cuentaEstado (registrosDeMigracion st.ctrl mid) "omitido" ∧
          (pasoEstudianteAEgresado mid falla st e).exitosos
              + (pasoEstudianteAEgresado mid falla st e).fallidos
            ≤ st.exitosos + st.fallidos + 1 := by
        by_cases hsk : 0 < st.esc.egresados.countP (fun g => g.estudianteId == e.id)
        · simp [pasoEstudianteAEgresado, hsk]
        · cases hf : falla e with
          | some msg =>
              simp [pasoEstudianteAEgresado, hsk, hf, cuenta_registrar,
                registrar_migraciones]
              omega
          | none =>
              simp [pasoEstudianteAEgresado, hsk, hf, cuenta_registrar,
                registrar_migraciones]
              omega
      obtain ⟨hs1, hs2, hs3, hs4, hs5⟩ := hstep
      refine ⟨ih1.trans hs1, ?_, ?_, ?_, ?_⟩ <;>
        (try simp only [List.length_cons]) <;> omega

/-- Lookup after an update that preserves row ids. -/
theorem find_map_id (l : List Migracion) (mid : Nat)
    (f : Migracion → Migracion) (hf : ∀ m, (f m).id = m.id) (m0 : Migracion)
    (h : l.find? (fun m => m.id == mid) = some m0) :
    (l.map f).find? (fun m => m.id == mid) = some (f m0) := by
  induction l with
  | nil => simp at h
  | cons x xs ih =>
      by_cases hx : x.id = mid
      · rw [List.find?_cons_of_pos _ (by simp [hx])] at h
        rw [List.map_cons, List.find?_cons_of_pos _ (by simp [hf, hx])]
        simp only [Option.some.injEq] at h ⊢
        rw [h]
      · rw [List.find?_cons_of_neg _ (by simp [hx])] at h
        rw [List.map_cons, List.find?_cons_of_neg _ (by simp [hf, hx])]
        exact ih h

/-- Lookup of a freshly appended job row whose id no earlier row carries. -/
theorem find_nuevo (l : List Migracion) (mid : Nat) (nuevo : Migracion)
    (hn : nuevo.id = mid) (hids : ∀ m ∈ l, m.id ≠ mid) :
    (l ++ [nuevo]).find? (fun m => m.id == mid) = some nuevo := by
  induction l with
  | nil =>
      rw [List.nil_append, List.find?_cons_of_pos _ (by simp [hn])]
  | cons x xs ih =>
      rw [List.cons_append,
        List.find?_cons_of_neg _ (by simp [hids x (List.mem_cons_self x xs)])]
      exact ih (fun m hm => hids m (List.mem_cons_of_mem x hm))

theorem registros_sellar (db : ControlDB) (mid' : Nat) (ex : Bool)
    (tot exi fal mid : Nat) :
    registrosDeMigracion (sellarRegistroMigracion db mid' ex tot exi fal) mid
      = registrosDeMigracion db mid := rfl

/-- Behavior of the estudiantes pipeline on a connected store: the sealed
job row exists, mirrors the handler result, is `completada` exactly when
the result reports success, and its counters equal the exitoso and fallido
detail-row counts, with no omitido row ever written. -/
theorem pipeline_est_spec (crit : CriteriosEstudiantes)
    (falla : Estudiante → Option String) (esc : EscuelaDB) (ctrl : ControlDB)
    (hr : ∀ rr ∈ ctrl.registros, rr.migracionId ≠ ctrl.nextMigracionId)
    (hm : ∀ m ∈ ctrl.migraciones, m.id ≠ ctrl.nextMigracionId) :
    ∃ m res,
      buscarMigracion (ejecutarMigracionEstudiantes crit falla (some esc) ctrl).2.1
          ctrl.nextMigracionId = some m ∧
      (ejecutarMigracionEstudiantes crit falla (some esc) ctrl).2.2 = .ok res ∧
      m.estado = (if res.exito then "completada" else "fallida") ∧
      m.registrosExitosos = res.exitosos ∧
      m.registrosFallidos = res.fallidos ∧
      m.totalRegistros = res.total ∧
      res.exito = decide (0 < res.exitosos) ∧
      res.total = (esc.estudiantes.filter (cumpleCriteriosEstudiante crit)).length ∧
      cuentaEstado (registrosDeMigracion
          (ejecutarMigracionEstudiantes crit falla (some esc) ctrl).2.1
          ctrl.nextMigracionId) "exitoso" = res.exitosos ∧
      cuentaEstado (registrosDeMigracion
          (ejecutarMigracionEstudiantes crit falla (some esc) ctrl).2.1
          ctrl.nextMigracionId) "fallido" = res.fallidos ∧
      cuentaEstado (registrosDeMigracion
          (ejecutarMigracionEstudiantes crit falla (some esc) ctrl).2.1
          ctrl.nextMigracionId) "omitido" = 0 ∧
      res.exitosos + res.fallidos ≤ res.total := by
  set mid := ctrl.nextMigracionId with hmiddef
  set nuevo : Migracion := ⟨mid, "estudiantes_a_egresados", "en_progreso", 0, 0, 0, none⟩
    with hnuevodef
  set ctrl1 : ControlDB :=
    { ctrl with migraciones := ctrl.migraciones ++ [nuevo], nextMigracionId := mid + 1 }
    with hctrl1def
  set sel := esc.estudiantes.filter (cumpleCriteriosEstudiante crit) with hseldef
  set fin := sel.foldl (pasoEstudianteAEgresado mid falla) ⟨esc, ctrl1, 0, 0⟩
    with hfindef
  have hzero : ∀ est : String, cuentaEstado (registrosDeMigracion ctrl1 mid) est = 0 := by
    intro est
    have hnil : registrosDeMigracion ctrl1 mid = [] := by
      simp only [registrosDeMigracion, hctrl1def]
      exact List.filter_eq_nil_iff.mpr (fun r hrr => by simp [hr r hrr])
    rw [hnil]; rfl
  obtain ⟨f1, f2, f3, f4, f5⟩ := fold_est_inv mid falla sel ⟨esc, ctrl1, 0, 0⟩
  rw [← hfindef] at f1 f2 f3 f4 f5
  have f2' : cuentaEstado (registrosDeMigracion fin.ctrl mid) "exitoso"
      = fin.exitosos := by simpa [hzero] using f2
  have f3' : cuentaEstado (registrosDeMigracion fin.ctrl mid) "fallido"
      = fin.fallidos := by simpa [hzero] using f3
  have f4' : cuentaEstado (registrosDeMigracion fin.ctrl mid) "omitido"
      = 0 := by simpa [hzero] using f4
  have f5' : fin.exitosos + fin.fallidos ≤ sel.length := by simpa using f5
  have hmigr : fin.ctrl.migraciones = ctrl.migraciones ++ [nuevo] := f1
  have hres : (ejecutarMigracionEstudiantes crit falla (some esc) ctrl).2.2
      = .ok ⟨decide (0 < fin.exitosos), sel.length, fin.exitosos, fin.fallidos⟩ := rfl
  have hctrlres : (ejecutarMigracionEstudiantes crit falla (some esc) ctrl).2.1
      = sellarRegistroMigracion fin.ctrl mid (decide (0 < fin.exitosos))
          sel.length fin.exitosos fin.fallidos := rfl
  have hfind : fin.ctrl.migraciones.find? (fun m => m.id == mid) = some nuevo := by
    rw [hmigr]
    exact find_nuevo ctrl.migraciones mid nuevo rfl hm
  have hbuscar : buscarMigracion
      (sellarRegistroMigracion fin.ctrl mid (decide (0 < fin.exitosos))
        sel.length fin.exitosos fin.fallidos) mid
      = some { nuevo with
          estado := if decide (0 < fin.exitosos) then "completada" else "fallida"
          totalRegistros := sel.length
          registrosExitosos := fin.exitosos
          registrosFallidos := fin.fallidos } := by
    have := find_map_id fin.ctrl.migraciones mid
      (fun m => if m.id = mid then
          { m with
              estado := if decide (0 < fin.exitosos) then "completada" else "fallida"
              totalRegistros := sel.length
              registrosExitosos := fin.exitosos
              registrosFallidos := fin.fallidos }
        else m)
      (fun m => by by_cases h : m.id = mid <;> simp [h]) nuevo hfind
    simp only [hnuevodef, if_pos rfl] at this
    exact this
  refine ⟨{ nuevo with
      estado := if decide (0 < fin.exitosos) then "completada" else "fallida"
      totalRegistros := sel.length
      registrosExitosos := fin.exitosos
      registrosFallidos := fin.fallidos },
    ⟨decide (0 < fin.exitosos), sel.length, fin.exitosos, fin.fallidos⟩,
    ?_, hres, rfl, rfl, rfl, rfl, rfl, rfl, ?_, ?_, ?_, ?_⟩
  · rw [hctrlres]; exact hbuscar
  · rw [hctrlres, registros_sellar]; simpa using f2'
  · rw [hctrlres, registros_sellar]; simpa using f3'
  · rw [hctrlres, registros_sellar]; simpa using f4'
  · simpa using f5'

/-- C4 counterexample: the pass completes normally (the handler returns a
result instead of raising), zero records succeed because the only matching
student is skipped as already graduated, and the job is nevertheless sealed
`fallida`. -/
theorem c4_counterexample :
    (ejecutarMigracionEstudiantes critVacios (fun _ => none)
        (some escSoloOmitidos) ctrlVacio).2.2 = .ok ⟨false, 1, 0, 0⟩ ∧
    buscarMigracion
        (ejecutarMigracionEstudiantes critVacios (fun _ => none)
          (some escSoloOmitidos) ctrlVacio).2.1 1
      = some ⟨1, "estudiantes_a_egresados", "fallida", 1, 0, 0, none⟩ :=
  ⟨rfl, rfl⟩

/-- C4 amended: a job whose pass raises (here: the escuela store is not
connected) is sealed `fallida`; a job whose pass completes is sealed
`completada` exactly when at least one record succeeded — in particular a
completed pass with zero successes (all skipped or nothing matched) is
also sealed `fallida`. -/
theorem c4_sello_exitos (crit : CriteriosEstudiantes)
    (falla : Estudiante → Option String) (esc : EscuelaDB) (ctrl : ControlDB)
    (hr : ∀ rr ∈ ctrl.registros, rr.migracionId ≠ ctrl.nextMigracionId)
    (hm : ∀ m ∈ ctrl.migraciones, m.id ≠ ctrl.nextMigracionId) :
    (∀ res, (ejecutarMigracionEstudiantes crit falla (some esc) ctrl).2.2
        = .ok res →
      ∃ m, buscarMigracion
          (ejecutarMigracionEstudiantes crit falla (some esc) ctrl).2.1
          ctrl.nextMigracionId = some m ∧
        (m.estado = "completada" ↔ 0 < res.exitosos) ∧
        (res.exitosos = 0 → m.estado = "fallida")) ∧
    ((ejecutarMigracionEstudiantes crit falla none ctrl).2.2
        = .error "Base de datos de escuela no disponible" ∧
      ∃ m, buscarMigracion
          (ejecutarMigracionEstudiantes crit falla none ctrl).2.1
          ctrl.nextMigracionId = some m ∧ m.estado = "fallida") := by
  constructor
  · intro res hres
    obtain ⟨m, res0, hb, hok, hest, he, hf, ht, hex, htot, c1, c2, c3, c4⟩ :=
      pipeline_est_spec crit falla esc ctrl hr hm
    rw [hok] at hres
    have hres0 : res0 = res := by
      injection hres with h'
    subst hres0
    refine ⟨m, hb, ?_, ?_⟩
    · rw [hest]
      by_cases hpos : 0 < res0.exitosos
      · simp [hex, hpos]
      · simp only [hex]
        simp [hpos]
    · intro h0
      rw [hest, hex, h0]
      simp
  · constructor
    · rfl
    · have hfind : (ctrl.migraciones ++
          [(⟨ctrl.nextMigracionId, "estudiantes_a_egresados", "en_progreso",
            0, 0, 0, none⟩ : Migracion)]).find?
          (fun m => m.id == ctrl.nextMigracionId)
          = some ⟨ctrl.nextMigracionId, "estudiantes_a_egresados",
              "en_progreso", 0, 0, 0, none⟩ :=
        find_nuevo ctrl.migraciones ctrl.nextMigracionId _ rfl hm
      have := find_map_id
        (ctrl.migraciones ++
          [⟨ctrl.nextMigracionId, "estudiantes_a_egresados", "en_progreso",
            0, 0, 0, none⟩]) ctrl.nextMigracionId
        (fun m => if m.id = ctrl.nextMigracionId then
            { m with
                estado := "fallida"
                errores := some "Base de datos de escuela no disponible" }
          else m)
        (fun m => by by_cases h : m.id = ctrl.nextMigracionId <;> simp [h])
        _ hfind
      refine ⟨⟨ctrl.nextMigracionId, "estudiantes_a_egresados", "fallida",
        0, 0, 0, some "Base de datos de escuela no disponible"⟩, ?_, rfl⟩
      simp only [if_pos rfl] at this
      exact this

/-- C4 witness: the amended sealing theorem applied at the one-student
store whose only record is skipped. -/
theorem c4_witness :
    (∀ res, (ejecutarMigracionEstudiantes critVacios (fun _ => none)
        (some escSoloOmitidos) ctrlVacio).2.2 = .ok res →
      ∃ m, buscarMigracion
          (ejecutarMigracionEstudiantes critVacios (fun _ => none)
            (some escSoloOmitidos) ctrlVacio).2.1
          ctrlVacio.nextMigracionId = some m ∧
        (m.estado = "completada" ↔ 0 < res.exitosos) ∧
        (res.exitosos = 0 → m.estado = "fallida")) ∧
    ((ejecutarMigracionEstudiantes critVacios (fun _ => none) none
        ctrlVacio).2.2 = .error "Base de datos de escuela no disponible" ∧
      ∃ m, buscarMigracion
          (ejecutarMigracionEstudiantes critVacios (fun _ => none) none
            ctrlVacio).2.1 ctrlVacio.nextMigracionId = some m ∧
        m.estado = "fallida") :=
  c4_sello_exitos critVacios (fun _ => none) escSoloOmitidos ctrlVacio
    (by intro rr h; simp [ctrlVacio] at h)
    (by intro m h; simp [ctrlVacio] at h)

/-- C9: the kind egresados_a_contratados passes the validity check, its
dispatch branch names a handler the class never defines, so the call always
raises, writes no detail row, and seals the freshly created job `fallida`
with the error recorded. -/
theorem c9_dispatch_indefinido (ctrl : ControlDB)
    (hm : ∀ m ∈ ctrl.migraciones, m.id ≠ ctrl.nextMigracionId) :
    "egresados_a_contratados" ∈ TIPOS_MIGRACION ∧
    "_migrar_egresados_a_contratados" ∉ metodosMigracionDefinidos ∧
    (ejecutarMigracionEgresadosAContratados ctrl).2
      = .error "AttributeError: _migrar_egresados_a_contratados" ∧
    (ejecutarMigracionEgresadosAContratados ctrl).1.registros = ctrl.registros ∧
    ∃ m, buscarMigracion (ejecutarMigracionEgresadosAContratados ctrl).1
        ctrl.nextMigracionId = some m ∧
      m.estado = "fallida" ∧
      m.tipoMigracion = "egresados_a_contratados" ∧
      m.errores = some "AttributeError: _migrar_egresados_a_contratados" := by
  have hred : ejecutarMigracionEgresadosAContratados ctrl
      = (sellarRegistroFallido
          (crearRegistroMigracion ctrl "egresados_a_contratados").1
          (crearRegistroMigracion ctrl "egresados_a_contratados").2
          "AttributeError: _migrar_egresados_a_contratados",
        .error "AttributeError: _migrar_egresados_a_contratados") := by
    rw [ejecutarMigracionEgresadosAContratados, if_neg (by decide),
      if_neg (by decide)]
  refine ⟨by decide, by decide, by rw [hred], by rw [hred]; rfl, ?_⟩
  rw [hred]
  have hfind : (ctrl.migraciones ++
      [(⟨ctrl.nextMigracionId, "egresados_a_contratados", "en_progreso",
        0, 0, 0, none⟩ : Migracion)]).find?
      (fun m => m.id == ctrl.nextMigracionId)
      = some ⟨ctrl.nextMigracionId, "egresados_a_contratados",
          "en_progreso", 0, 0, 0, none⟩ :=
    find_nuevo ctrl.migraciones ctrl.nextMigracionId _ rfl hm
  have := find_map_id
    (ctrl.migraciones ++
      [⟨ctrl.nextMigracionId, "egresados_a_contratados", "en_progreso",
        0, 0, 0, none⟩]) ctrl.nextMigracionId
    (fun m => if m.id = ctrl.nextMigracionId then
        { m with
            estado := "fallida"
            errores := some "AttributeError: _migrar_egresados_a_contratados" }
      else m)
    (fun m => by by_cases h : m.id = ctrl.nextMigracionId <;> simp [h])
    _ hfind
  refine ⟨⟨ctrl.nextMigracionId, "egresados_a_contratados", "fallida",
    0, 0, 0, some "AttributeError: _migrar_egresados_a_contratados"⟩,
    ?_, rfl, rfl, rfl⟩
  simp only [if_pos rfl] at this
  exact this

/-- C9 witness: the dispatch theorem applied at the empty control store. -/
theorem c9_witness :
    "egresados_a_contratados" ∈ TIPOS_MIGRACION ∧
    "_migrar_egresados_a_contratados" ∉ metodosMigracionDefinidos ∧
    (ejecutarMigracionEgresadosAContratados ctrlVacio).2
      = .error "AttributeError: _migrar_egresados_a_contratados" ∧
    (ejecutarMigracionEgresadosAContratados ctrlVacio).1.registros
      = ctrlVacio.registros ∧
    ∃ m, buscarMigracion (ejecutarMigracionEgresadosAContratados ctrlVacio).1
        ctrlVacio.nextMigracionId = some m ∧
      m.estado = "fallida" ∧
      m.tipoMigracion = "egresados_a_contratados" ∧
      m.errores = some "AttributeError: _migrar_egresados_a_contratados" :=
  c9_dispatch_indefinido ctrlVacio (by intro m h; simp [ctrlVacio] at h)

/-- C10: the report summary of an existing job is computed over all of its
detail rows, while the returned row list is truncated to the first 100, so
a job with more than 100 rows reports summary counts exceeding the rows
returned. -/
theorem c10_reporte_truncado (db : ControlDB) (mid : Nat) (rep : Reporte)
    (h : generarReporteMigracion db mid = .ok rep) :
    rep.resumen.totalRegistros = (registrosDeMigracion db mid).length ∧
    rep.resumen.exitosos = cuentaEstado (registrosDeMigracion db mid) "exitoso" ∧
    rep.resumen.fallidos = cuentaEstado (registrosDeMigracion db mid) "fallido" ∧
    rep.resumen.omitidos = cuentaEstado (registrosDeMigracion db mid) "omitido" ∧
    rep.registros = (registrosDeMigracion db mid).take 100 ∧
    rep.registros.length = min 100 (registrosDeMigracion db mid).length ∧
    (100 < (registrosDeMigracion db mid).length →
      rep.registros.length = 100 ∧
      rep.registros.length < rep.resumen.totalRegistros) := by
  unfold generarReporteMigracion at h
  cases hb : buscarMigracion db mid with
  | none => rw [hb] at h; exact absurd h (by simp)
  | some m =>
      rw [hb] at h
      simp only [Except.ok.injEq] at h
      subst h
      refine ⟨rfl, rfl, rfl, rfl, rfl, ?_, ?_⟩
      · simp [List.length_take]
      · intro hgt
        constructor
        · simp [List.length_take]; omega
        · simp [List.length_take]; omega

theorem claveEn_paso (mid : Nat) (falla : RegistroOrigen → Option String)
    (base tabla tablaDestino : String) (st : EstadoConsolidar)
    (r : RegistroOrigen) (t : String) (i : Nat)
    (h : claveEn st.dest t i = true) :
    claveEn (pasoConsolidar mid falla base tabla tablaDestino st r).dest t i = true := by
  unfold pasoConsolidar
  split_ifs with hc
  · exact h
  · cases falla r with
    | some msg => exact h
    | none =>
        simp only [claveEn, List.countP_append, decide_eq_true_eq] at h ⊢
        omega

theorem claveEn_fold (mid : Nat) (falla : RegistroOrigen → Option String)
    (base tabla tablaDestino : String) (rs : List RegistroOrigen) :
    ∀ (st : EstadoConsolidar) (t : String) (i : Nat),
      claveEn st.dest t i = true →
      claveEn ((rs.foldl (pasoConsolidar mid falla base tabla tablaDestino) st).dest)
        t i = true := by
  induction rs with
  | nil => intro st t i h; exact h
  | cons r rs ih =>
      intro st t i h
      exact ih _ t i (claveEn_paso mid falla base tabla tablaDestino st r t i h)

theorem claveEn_paso_propia (mid : Nat) (base tabla tablaDestino : String)
    (st : EstadoConsolidar) (r : RegistroOrigen) :
    claveEn (pasoConsolidar mid (fun _ => none) base tabla tablaDestino st r).dest
      (base ++ "." ++ tabla) r.id = true := by
  unfold pasoConsolidar
  split_ifs with hc
  · exact hc
  · simp [claveEn, List.countP_append, List.countP_cons]

theorem claveEn_base (mid : Nat) (base tabla tablaDestino : String)
    (rs : List RegistroOrigen) :
    ∀ (st : EstadoConsolidar) (r : RegistroOrigen), r ∈ rs →
      claveEn ((rs.foldl (pasoConsolidar mid (fun _ => none) base tabla tablaDestino) st).dest)
        (base ++ "." ++ tabla) r.id = true := by
  induction rs with
  | nil => intro st r h; simp at h
  | cons x xs ih =>
      intro st r h
      rw [List.foldl_cons]
      rcases List.mem_cons.mp h with rfl | h'
      · exact claveEn_fold mid (fun _ => none) base tabla tablaDestino xs _ _ _
          (claveEn_paso_propia mid base tabla tablaDestino st r)
      · exact ih _ r h'

theorem claveEn_bases_fold (mid : Nat) (tablaDestino : String)
    (conexiones : String → Option BaseOrigen) (bases : List String) :
    ∀ (st : EstadoConsolidar) (t : String) (i : Nat),
      claveEn st.dest t i = true →
      claveEn ((bases.foldl (consolidarBase mid (fun _ => none) tablaDestino conexiones) st).dest)
        t i = true := by
  induction bases with
  | nil => intro st t i h; exact h
  | cons b bs ih =>
      intro st t i h
      rw [List.foldl_cons]
      refine ih _ t i ?_
      unfold consolidarBase
      cases hb : conexiones b with
      | none => exact h
      | some bb => exact claveEn_fold mid (fun _ => none) b bb.tabla tablaDestino _ st t i h

/-- After one consolidation run, every record of every available source
store is present in the destination under its key. -/
theorem consolidar_todo_presente (mid : Nat) (tablaDestino : String)
    (conexiones : String → Option BaseOrigen) (bases : List String) :
    ∀ (st : EstadoConsolidar) (nombre : String) (b : BaseOrigen)
      (r : RegistroOrigen),
      nombre ∈ bases → conexiones nombre = some b → r ∈ b.registros →
      claveEn ((bases.foldl (consolidarBase mid (fun _ => none) tablaDestino conexiones) st).dest)
        (nombre ++ "." ++ b.tabla) r.id = true := by
  induction bases with
  | nil => intro st nombre b r h; simp at h
  | cons x xs ih =>
      intro st nombre b r hmem hconn hr
      rw [List.foldl_cons]
      rcases List.mem_cons.mp hmem with rfl | h'
      · refine claveEn_bases_fold mid tablaDestino conexiones xs _ _ _ ?_
        unfold consolidarBase
        rw [hconn]
        exact claveEn_base mid nombre b.tabla tablaDestino b.registros st r hr
      · exact ih _ nombre b r h' hconn hr

/-- A pass over records whose keys are all present leaves the whole loop
state unchanged. -/
theorem fold_presente_id (mid : Nat) (falla : RegistroOrigen → Option String)
    (base tabla tablaDestino : String) (rs : List RegistroOrigen) :
    ∀ st : EstadoConsolidar,
      (∀ r ∈ rs, claveEn st.dest (base ++ "." ++ tabla) r.id = true) →
      rs.foldl (pasoConsolidar mid falla base tabla tablaDestino) st = st := by
  induction rs with
  | nil => intro st _; rfl
  | cons r rs ih =>
      intro st h
      rw [List.foldl_cons]
      have hstep : pasoConsolidar mid falla base tabla tablaDestino st r = st := by
        unfold pasoConsolidar
        rw [if_pos (h r (List.mem_cons_self r rs))]
      rw [hstep]
      exact ih st (fun r' hr' => h r' (List.mem_cons_of_mem r hr'))

/-- C6: consolidation is idempotent.  Running the pass a second time on
unchanged sources skips every record (its key is already present) and
inserts nothing: the destination table, hence its row count, is unchanged,
and the second pass also writes no detail rows and counts zero processed
records. -/
theorem c6_consolidar_idempotente (mid mid2 : Nat)
    (conexiones : String → Option BaseOrigen) (basesOrigen : List String)
    (tablaDestino : String) (dest : List RegistroConsolidado)
    (ctrl ctrl2 : ControlDB) :
    (consolidarBasesDatos mid2 (fun _ => none) conexiones basesOrigen tablaDestino
        (consolidarBasesDatos mid (fun _ => none) conexiones basesOrigen
          tablaDestino dest ctrl).1 ctrl2).1
      = (consolidarBasesDatos mid (fun _ => none) conexiones basesOrigen
          tablaDestino dest ctrl).1 ∧
    (consolidarBasesDatos mid2 (fun _ => none) conexiones basesOrigen tablaDestino
        (consolidarBasesDatos mid (fun _ => none) conexiones basesOrigen
          tablaDestino dest ctrl).1 ctrl2).1.length
      = (consolidarBasesDatos mid (fun _ => none) conexiones basesOrigen
          tablaDestino dest ctrl).1.length ∧
    (consolidarBasesDatos mid2 (fun _ => none) conexiones basesOrigen tablaDestino
        (consolidarBasesDatos mid (fun _ => none) conexiones basesOrigen
          tablaDestino dest ctrl).1 ctrl2).2.1 = ctrl2 ∧
    (consolidarBasesDatos mid2 (fun _ => none) conexiones basesOrigen tablaDestino
        (consolidarBasesDatos mid (fun _ => none) conexiones basesOrigen
          tablaDestino dest ctrl).1 ctrl2).2.2.total = 0 := by
  set dest1 := (consolidarBasesDatos mid (fun _ => none) conexiones basesOrigen
    tablaDestino dest ctrl).1 with hdest1
  have hpres : ∀ (nombre : String) (b : BaseOrigen) (r : RegistroOrigen),
      nombre ∈ basesOrigen → conexiones nombre = some b → r ∈ b.registros →
      claveEn dest1 (nombre ++ "." ++ b.tabla) r.id = true := by
    intro nombre b r hmem hconn hr
    exact consolidar_todo_presente mid tablaDestino conexiones basesOrigen
      ⟨dest, ctrl, 0, 0⟩ nombre b r hmem hconn hr
  have hid : ∀ (bases : List String),
      (∀ nombre ∈ bases, nombre ∈ basesOrigen) →
      bases.foldl (consolidarBase mid2 (fun _ => none) tablaDestino conexiones)
        ⟨dest1, ctrl2, 0, 0⟩ = ⟨dest1, ctrl2, 0, 0⟩ := by
    intro bases
    induction bases with
    | nil => intro _; rfl
    | cons x xs ih =>
        intro hsub
        rw [List.foldl_cons]
        have hx : consolidarBase mid2 (fun _ => none) tablaDestino conexiones
            ⟨dest1, ctrl2, 0, 0⟩ x = ⟨dest1, ctrl2, 0, 0⟩ := by
          unfold consolidarBase
          cases hb : conexiones x with
          | none => rfl
          | some bb =>
              exact fold_presente_id mid2 (fun _ => none) x bb.tabla tablaDestino
                bb.registros ⟨dest1, ctrl2, 0, 0⟩
                (fun r hr => hpres x bb r (hsub x (List.mem_cons_self x xs)) hb hr)
        rw [hx]
        exact ih (fun nombre h => hsub nombre (List.mem_cons_of_mem x h))
  have hrun2 : basesOrigen.foldl
      (consolidarBase mid2 (fun _ => none) tablaDestino conexiones)
      ⟨dest1, ctrl2, 0, 0⟩ = ⟨dest1, ctrl2, 0, 0⟩ :=
    hid basesOrigen (fun _ h => h)
  refine ⟨?_, ?_, ?_, ?_⟩ <;>
    simp only [consolidarBasesDatos, hrun2, ← hdest1]

theorem eqNN_some (x : Option (List Nat)) (v : List Nat) :
    eqNN x (some v) = (x == some v) := by cases x <;> rfl

theorem eqNN_none (x : Option (List Nat)) : eqNN x none = false := by
  cases x <;> rfl

theorem eqNN_true {x y : Option (List Nat)} (h : eqNN x y = true) :
    ∃ v, x = some v ∧ y = some v := by
  cases x with
  | none => simp [eqNN] at h
  | some a =>
      cases y with
      | none => simp [eqNN] at h
      | some b =>
          simp only [eqNN, beq_iff_eq] at h
          exact ⟨a, rfl, by rw [h]⟩

theorem eliminar_sublist (col : List Nat) (par : List Fila × Nat)
    (v : Option (List Nat)) : (eliminarValor col par v).1.Sublist par.1 := by
  simp only [eliminarValor]
  split_ifs
  · exact List.filter_sublist par.1
  · exact List.Sublist.refl par.1

theorem fold_eliminar_sublist (col : List Nat)
    (dups : List (Option (List Nat))) :
    ∀ par : List Fila × Nat,
      ((dups.foldl (eliminarValor col) par).1).Sublist par.1 := by
  induction dups with
  | nil => intro par; exact List.Sublist.refl _
  | cons u rest ih =>
      intro par
      rw [List.foldl_cons]
      exact (ih _).trans (eliminar_sublist col par u)

theorem limpiarColumna_sublist (par : List Fila × Nat) (col : List Nat) :
    (limpiarColumna par col).1.Sublist par.1 := by
  unfold limpiarColumna
  split_ifs
  · exact fold_eliminar_sublist col _ par
  · exact List.Sublist.refl _

theorem fold_columnas_sublist (cols : List (List Nat)) :
    ∀ par : List Fila × Nat,
      ((cols.foldl limpiarColumna par).1).Sublist par.1 := by
  induction cols with
  | nil => intro par; exact List.Sublist.refl _
  | cons c cs ih =>
      intro par
      rw [List.foldl_cons]
      exact (ih _).trans (limpiarColumna_sublist par c)

theorem countP_id_le_one {fs : List Fila}
    (hnd : (fs.map (fun r => r.id)).Nodup) (M : Nat) :
    fs.countP (fun r => r.id == M) ≤ 1 := by
  induction fs with
  | nil => simp
  | cons x xs ih =>
      simp only [List.map_cons, List.nodup_cons] at hnd
      obtain ⟨hx, hxs⟩ := hnd
      rw [List.countP_cons]
      by_cases hxM : x.id = M
      · have hzero : xs.countP (fun r => r.id == M) = 0 := by
          rw [List.countP_eq_zero]
          intro r hr
          simp only [beq_iff_eq]
          intro hrM
          exact hx (by
            rw [hxM, ← hrM]
            exact List.mem_map_of_mem _ hr)
        simp [hxM, hzero]
      · have hx0 : (x.id == M) = false := by simp [hxM]
        rw [hx0]
        simpa using ih hxs

theorem cuentaVal_eliminar (col : List Nat) (par : List Fila × Nat)
    (v : List Nat) (hnd : (par.1.map (fun r => r.id)).Nodup) :
    cuentaVal (eliminarValor col par (some v)).1 col v ≤ 1 := by
  unfold eliminarValor cuentaVal
  by_cases hlen : 1 <
      (par.1.filter (fun r => eqNN (r.val col) (some v))).length
  · simp only [hlen, if_true]
    set grupo := par.1.filter (fun r => eqNN (r.val col) (some v)) with hg
    set M := maxIdGrupo grupo with hM
    set elim := (grupo.map (fun r => r.id)).filter (fun i => decide (i ≠ M))
      with helim
    rw [List.countP_filter]
    have hmono : ∀ r ∈ par.1,
        ((eqNN (r.val col) (some v)) && decide (r.id ∉ elim)) = true →
        (r.id == M) = true := by
      intro r hr hcond
      simp only [Bool.and_eq_true, decide_eq_true_eq] at hcond
      obtain ⟨hp, hq⟩ := hcond
      have hrg : r ∈ grupo := by rw [hg]; exact List.mem_filter.mpr ⟨hr, hp⟩
      have hid : r.id ∈ grupo.map (fun r => r.id) := List.mem_map_of_mem _ hrg
      by_contra hne
      simp only [beq_iff_eq] at hne
      exact hq (by
        rw [helim]
        exact List.mem_filter.mpr ⟨hid, by simp [hne]⟩)
    calc par.1.countP (fun r => (eqNN (r.val col) (some v))
            && decide (r.id ∉ elim))
        ≤ par.1.countP (fun r => r.id == M) := List.countP_mono_left hmono
      _ ≤ 1 := countP_id_le_one hnd M
  · simp only [hlen, if_false]
    have heq : par.1.countP (fun r => eqNN (r.val col) (some v))
        = (par.1.filter (fun r => eqNN (r.val col) (some v))).length := by
      rw [List.countP_eq_length_filter]
    omega

theorem cuentaVal_fold_dups (col v : List Nat)
    (dups : List (Option (List Nat))) :
    ∀ par : List Fila × Nat, (par.1.map (fun r => r.id)).Nodup →
      some v ∈ dups →
      cuentaVal (dups.foldl (eliminarValor col) par).1 col v ≤ 1 := by
  induction dups with
  | nil => intro par _ h; simp at h
  | cons u rest ih =>
      intro par hnd hv
      rw [List.foldl_cons]
      by_cases hu : u = some v
      · subst hu
        have h1 := cuentaVal_eliminar col par v hnd
        have hs := fold_eliminar_sublist col rest (eliminarValor col par (some v))
        calc cuentaVal ((rest.foldl (eliminarValor col)
                (eliminarValor col par (some v))).1) col v
            ≤ cuentaVal (eliminarValor col par (some v)).1 col v :=
              List.Sublist.countP_le _ hs
          _ ≤ 1 := h1
      · rcases List.mem_cons.mp hv with h | h
        · exact absurd h.symm hu
        · refine ih _ ?_ h
          exact List.Nodup.sublist
            (List.Sublist.map _ (eliminar_sublist col par u)) hnd

theorem cuentaVal_eq_count (fs : List Fila) (col v : List Nat) :
    (fs.map (fun r => r.val col)).count (some v) = cuentaVal fs col v := by
  induction fs with
  | nil => rfl
  | cons x xs ih =>
      simp only [List.map_cons, List.count_cons, cuentaVal,
        List.countP_cons] at *
      rw [eqNN_some] at *
      omega

theorem limpiarColumna_cuenta (col : List Nat) (par : List Fila × Nat)
    (hnd : (par.1.map (fun r => r.id)).Nodup)
    (hcol : esColumnaUnica col = true) (v : List Nat) :
    cuentaVal (limpiarColumna par col).1 col v ≤ 1 := by
  unfold limpiarColumna
  rw [if_pos hcol]
  by_cases hc : cuentaVal par.1 col v ≤ 1
  · calc cuentaVal ((valoresDuplicados par.1 col).foldl
          (eliminarValor col) par).1 col v
        ≤ cuentaVal par.1 col v :=
          List.Sublist.countP_le _ (fold_eliminar_sublist col _ par)
      _ ≤ 1 := hc
  · push_neg at hc
    have hcnt : 1 < (par.1.map (fun r => r.val col)).count (some v) := by
      rw [cuentaVal_eq_count]; exact hc
    have hmem : some v ∈ valoresDuplicados par.1 col := by
      unfold valoresDuplicados
      refine List.mem_filter.mpr ⟨?_, ?_⟩
      · rw [List.mem_dedup]
        exact List.count_pos_iff.mp (by omega)
      · simpa using hcnt
    exact cuentaVal_fold_dups col v _ par hnd hmem

theorem fold_columnas_cuenta (cols : List (List Nat)) :
    ∀ par : List Fila × Nat, (par.1.map (fun r => r.id)).Nodup →
      ∀ col ∈ cols, esColumnaUnica col = true →
      ∀ v, cuentaVal (cols.foldl limpiarColumna par).1 col v ≤ 1 := by
  induction cols with
  | nil => intro par _ col h; simp at h
  | cons c cs ih =>
      intro par hnd col hmem hcol v
      rw [List.foldl_cons]
      rcases List.mem_cons.mp hmem with rfl | h
      · have h1 := limpiarColumna_cuenta col par hnd hcol v
        calc cuentaVal ((cs.foldl limpiarColumna (limpiarColumna par col)).1) col v
            ≤ cuentaVal (limpiarColumna par col).1 col v :=
              List.Sublist.countP_le _ (fold_columnas_sublist cs _)
          _ ≤ 1 := h1
      · refine ih _ ?_ col h hcol v
        exact List.Nodup.sublist
          (List.Sublist.map _ (limpiarColumna_sublist par c)) hnd

theorem limpiarColumna_id (col : List Nat) (par : List Fila × Nat)
    (h : ∀ v, cuentaVal par.1 col v ≤ 1) :
    limpiarColumna par col = par := by
  unfold limpiarColumna
  split_ifs with hcol
  · have hstep : ∀ u, eliminarValor col par u = par := by
      intro u
      unfold eliminarValor
      cases u with
      | none =>
          have hnil : par.1.filter (fun r => eqNN (r.val col) none) = [] := by
            apply List.filter_eq_nil_iff.mpr
            intro r _
            simp [eqNN_none]
          simp [hnil]
      | some v =>
          have hlen : (par.1.filter (fun r => eqNN (r.val col) (some v))).length ≤ 1 := by
            have := h v
            rwa [cuentaVal, List.countP_eq_length_filter] at this
          rw [if_neg (by omega)]
    have hfold : ∀ l : List (Option (List Nat)),
        l.foldl (eliminarValor col) par = par := by
      intro l
      induction l with
      | nil => rfl
      | cons u rest ih2 => rw [List.foldl_cons, hstep u]; exact ih2
    exact hfold _
  · rfl

theorem fold_columnas_id (fs : List Fila) (n : Nat) :
    ∀ cols : List (List Nat),
      (∀ col ∈ cols, esColumnaUnica col = true →
        ∀ v, cuentaVal fs col v ≤ 1) →
      cols.foldl limpiarColumna (fs, n) = (fs, n) := by
  intro cols
  induction cols with
  | nil => intro _; rfl
  | cons c cs ih =>
      intro h
      rw [List.foldl_cons]
      have hc : limpiarColumna (fs, n) c = (fs, n) := by
        by_cases hcol : esColumnaUnica c = true
        · exact limpiarColumna_id c (fs, n) (h c (List.mem_cons_self c cs) hcol)
        · unfold limpiarColumna; rw [if_neg hcol]
      rw [hc]
      exact ih (fun col hm hcol v => h col (List.mem_cons_of_mem c hm) hcol v)

theorem dos_le_countP {p : Fila → Bool} {l : List Fila} {r1 r2 : Fila}
    (h1 : r1 ∈ l) (h2 : r2 ∈ l) (hne : r1 ≠ r2)
    (hp1 : p r1 = true) (hp2 : p r2 = true) : 2 ≤ l.countP p := by
  rw [List.countP_eq_length_filter]
  have m1 : r1 ∈ l.filter p := List.mem_filter.mpr ⟨h1, hp1⟩
  have m2 : r2 ∈ l.filter p := List.mem_filter.mpr ⟨h2, hp2⟩
  cases hf : l.filter p with
  | nil => rw [hf] at m1; simp at m1
  | cons x xs =>
      cases xs with
      | nil =>
          rw [hf] at m1 m2
          simp only [List.mem_singleton] at m1 m2
          exact absurd (m1.trans m2.symm) hne
      | cons y ys => simp

/-- C7: after one complete deduplication pass over a table with a
duplicate-free primary key, no two remaining rows share a non-NULL value
in any column the keyword heuristic selects, and a second pass returns the
very same table having deleted zero rows. -/
theorem c7_limpiar_convergente (t : TablaDB)
    (hids : (t.filas.map (fun r => r.id)).Nodup) :
    (∀ col ∈ t.columnas, esColumnaUnica col = true →
      ∀ r1 ∈ (limpiarTabla t).1.filas, ∀ r2 ∈ (limpiarTabla t).1.filas,
        r1.id ≠ r2.id → eqNN (r1.val col) (r2.val col) = false) ∧
    limpiarTabla (limpiarTabla t).1 = ((limpiarTabla t).1, 0) := by
  have hcount : ∀ col ∈ t.columnas, esColumnaUnica col = true →
      ∀ v, cuentaVal ((t.columnas.foldl limpiarColumna (t.filas, 0)).1) col v ≤ 1 :=
    fun col hm hcol v =>
      fold_columnas_cuenta t.columnas (t.filas, 0) hids col hm hcol v
  constructor
  · intro col hm hcol r1 h1 r2 h2 hne
    by_contra habs
    rw [Bool.not_eq_false] at habs
    obtain ⟨v, hv1, hv2⟩ := eqNN_true habs
    have hple : 2 ≤ ((limpiarTabla t).1.filas).countP
        (fun r => eqNN (r.val col) (some v)) := by
      refine dos_le_countP h1 h2 (fun he => hne (congrArg Fila.id he)) ?_ ?_
      · rw [hv1]; simp [eqNN]
      · rw [hv2]; simp [eqNN]
    have hle := hcount col hm hcol v
    rw [cuentaVal] at hle
    have hfil : (limpiarTabla t).1.filas
        = (t.columnas.foldl limpiarColumna (t.filas, 0)).1 := rfl
    rw [hfil] at hple
    omega
  · have hid := fold_columnas_id
      ((t.columnas.foldl limpiarColumna (t.filas, 0)).1) 0 t.columnas
      (fun col hm hcol v => hcount col hm hcol v)
    show limpiarTabla ⟨t.columnas, (t.columnas.foldl limpiarColumna (t.filas, 0)).1⟩
      = ((limpiarTabla t).1, 0)
    unfold limpiarTabla
    rw [hid]

/-- C7 witness: the convergence theorem applied at the concrete table with
one duplicated email. -/
theorem c7_witness :
    (∀ col ∈ tablaEj.columnas, esColumnaUnica col = true →
      ∀ r1 ∈ (limpiarTabla tablaEj).1.filas,
      ∀ r2 ∈ (limpiarTabla tablaEj).1.filas,
        r1.id ≠ r2.id → eqNN (r1.val col) (r2.val col) = false) ∧
    limpiarTabla (limpiarTabla tablaEj).1 = ((limpiarTabla tablaEj).1, 0) :=
  c7_limpiar_convergente tablaEj (by decide)

/-- C10 witness: the report theorem applied at a job with 101 detail rows;
the summary says 101 while only 100 rows are returned. -/
theorem c10_witness :
    rep101.resumen.totalRegistros = (registrosDeMigracion ctrl101 1).length ∧
    rep101.resumen.exitosos = cuentaEstado (registrosDeMigracion ctrl101 1) "exitoso" ∧
    rep101.resumen.fallidos = cuentaEstado (registrosDeMigracion ctrl101 1) "fallido" ∧
    rep101.resumen.omitidos = cuentaEstado (registrosDeMigracion ctrl101 1) "omitido" ∧
    rep101.registros = (registrosDeMigracion ctrl101 1).take 100 ∧
    rep101.registros.length = min 100 (registrosDeMigracion ctrl101 1).length ∧
    (100 < (registrosDeMigracion ctrl101 1).length →
      rep101.registros.length = 100 ∧
      rep101.registros.length < rep101.resumen.totalRegistros) :=
  c10_reporte_truncado ctrl101 1 rep101 rfl

end Esc
